import Mathlib

/-!
Shallow embedding of `src/device.c` from the SynapticsTouch driver
(WDF device-specific request handling for a Synaptics touch controller),
together with theorems checking the specification's claims about it.

External collaborators (`TchServiceInterrupts`, `TchWakeDevice`,
`TchStopDevice`, `TchFreeContext`, `SpbTargetInitialize`,
`TchAllocateContext`, `TchRegistryGetControllerSettings`,
`TchStartDevice`, `SpbTargetDeinitialize`) live outside this file's
source; their observable outcomes (NTSTATUS results, produced report
sequences) are inputs of the embedded functions, and the fact and order
of their invocation is recorded in explicit event traces.
-/

namespace SynapticsTouch

/-- NTSTATUS values are signed 32-bit integers; we model them as `Int`.
The `NT_SUCCESS` macro is `((NTSTATUS)(Status)) >= 0`. -/
def NT_SUCCESS (s : Int) : Bool := decide (0 ≤ s)

def STATUS_SUCCESS : Int := 0

def STATUS_UNSUCCESSFUL : Int := 0xC0000001 - 2 ^ 32

def STATUS_BUFFER_TOO_SMALL : Int := 0xC0000023 - 2 ^ 32

def STATUS_INSUFFICIENT_RESOURCES : Int := 0xC000009A - 2 ^ 32

/-! ## OnInterruptIsr (device.c lines 33-182)

A report produced by `TchServiceInterrupts` is an opaque fixed-size
value; we model its payload as a `Nat`.  A pending HIDClass request
popped from `devContext->PingPongQueue` is characterised by its id, the
status `WdfRequestRetrieveOutputBuffer` would return for it, and the
length of its output buffer.  `sizeof(HID_INPUT_REPORT)` is the
parameter `reportSize`. -/

/-- One outstanding HIDClass read request in the ping-pong queue. -/
structure PendingRequest where
  id : Nat
  retrieveStatus : Int
  bufferLength : Nat
deriving DecidableEq

/-- The observable outcome of `WdfRequestComplete` on one popped request:
the completion status, the information (byte count) recorded by
`WdfRequestSetInformation` (0 when never called), and the report payload
copied into the output buffer by `RtlCopyMemory` (none when no copy
happened). -/
structure Completion where
  id : Nat
  status : Int
  information : Nat
  data : Option Nat
deriving DecidableEq

/-- Body of one iteration of the servicing loop after a successful pop
(device.c lines 136-177): retrieve the output buffer; on retrieve
failure complete with that failure status and nothing written; if the
buffer is shorter than `sizeof(HID_INPUT_REPORT)` complete with
`STATUS_BUFFER_TOO_SMALL` and nothing written; otherwise copy the
report, set the information to the report size and complete with the
(successful) retrieve status. -/
def completionFor (reportSize : Nat) (req : PendingRequest) (report : Nat) : Completion :=
  if !NT_SUCCESS req.retrieveStatus then
    { id := req.id, status := req.retrieveStatus, information := 0, data := none }
  else if req.bufferLength < reportSize then
    { id := req.id, status := STATUS_BUFFER_TOO_SMALL, information := 0, data := none }
  else
    { id := req.id, status := req.retrieveStatus, information := reportSize,
      data := some report }

/-- The `for (i = 0; i < reportsLen; i++)` loop of device.c lines
113-178: for each report pop the next request from the queue; when the
queue is empty (`WdfIoQueueRetrieveNextRequest` fails) the report is
ignored and the loop continues; otherwise the popped request is
completed via `completionFor`.  Returns the remaining queue and the list
of completions in completion order. -/
def serviceLoop (reportSize : Nat) :
    List Nat → List PendingRequest → List Completion →
    List PendingRequest × List Completion
  | [], queue, acc => (queue, acc)
  | _ :: reports, [], acc => serviceLoop reportSize reports [] acc
  | report :: reports, req :: queue, acc =>
      serviceLoop reportSize reports queue (acc ++ [completionFor reportSize req report])

/-- The observable outcome of one `OnInterruptIsr` invocation. -/
structure IsrResult where
  handled : Bool
  queue : List PendingRequest
  completions : List Completion
  reportSourceCalled : Bool
deriving DecidableEq

/-- `OnInterruptIsr` (device.c lines 33-182).  `diagnosticMode` is
`devContext->DiagnosticMode`; `svcStatus` and `reports` are the status
and report sequence produced by the external `TchServiceInterrupts`
call; `queue` is the ping-pong queue content at pass start (head =
oldest), with no concurrent insertion modelled. -/
def OnInterruptIsr (reportSize : Nat) (diagnosticMode : Bool) (svcStatus : Int)
    (reports : List Nat) (queue : List PendingRequest) : IsrResult :=
  if diagnosticMode then
    { handled := true, queue := queue, completions := [], reportSourceCalled := false }
  else if !NT_SUCCESS svcStatus then
    { handled := true, queue := queue, completions := [], reportSourceCalled := true }
  else
    let qc := serviceLoop reportSize reports queue []
    { handled := true, queue := qc.1, completions := qc.2, reportSourceCalled := true }

/-! ## OnD0Entry (device.c lines 184-237) -/

/-- The observable outcome of `OnD0Entry`: the returned status, whether
the wake-failure trace branch ran, the value written to
`devContext->ServiceInterruptsAfterD0Entry`, and whether
`TchCompleteIdleIrp` was invoked. -/
structure D0EntryResult where
  status : Int
  loggedWakeError : Bool
  serviceInterruptsAfterD0Entry : Bool
  idleIrpCompleted : Bool
deriving DecidableEq

/-- `OnD0Entry` (device.c lines 184-237).  `wakeStatus` is the status
returned by the external `TchWakeDevice` call. -/
def OnD0Entry (wakeStatus : Int) : D0EntryResult :=
  let status := wakeStatus
  let loggedWakeError := !NT_SUCCESS status
  { status := status, loggedWakeError := loggedWakeError,
    serviceInterruptsAfterD0Entry := true, idleIrpCompleted := true }

/-! ## OnPrepareHardware (device.c lines 285-425) -/

/-- One `CM_PARTIAL_RESOURCE_DESCRIPTOR` of the translated resource
list, restricted to the fields device.c reads. -/
structure ResourceDescriptor where
  resType : Nat
  connectionClass : Nat
  connectionType : Nat
  idLowPart : Nat
  idHighPart : Nat
deriving DecidableEq

def CmResourceTypeConnection : Nat := 4

def CM_RESOURCE_CONNECTION_CLASS_SERIAL : Nat := 1

def CM_RESOURCE_CONNECTION_TYPE_SERIAL_I2C : Nat := 1

/-- The match condition of device.c lines 333-335. -/
def isI2CConnection (res : ResourceDescriptor) : Bool :=
  res.resType == CmResourceTypeConnection &&
  res.connectionClass == CM_RESOURCE_CONNECTION_CLASS_SERIAL &&
  res.connectionType == CM_RESOURCE_CONNECTION_TYPE_SERIAL_I2C

/-- The resource scan loop of device.c lines 329-344: walk the
descriptors in list order; every match overwrites
`devContext->I2CContext.I2cResHubId` with that descriptor's
(low, high) connection id and sets the status to `STATUS_SUCCESS`. -/
def scanResources :
    List ResourceDescriptor → Int → Option (Nat × Nat) → Int × Option (Nat × Nat)
  | [], status, resHubId => (status, resHubId)
  | res :: rest, status, resHubId =>
      if isI2CConnection res then
        scanResources rest STATUS_SUCCESS (some (res.idLowPart, res.idHighPart))
      else
        scanResources rest status resHubId

/-- The external calls `OnPrepareHardware` can make after the resource
scan, in program order. -/
inductive BindStep where
  | spbTargetInitialize
  | tchAllocateContext
  | tchRegistryGetControllerSettings
  | tchStartDevice
deriving DecidableEq

/-- Statuses the external bind-chain collaborators would return if
invoked. -/
structure BindEnv where
  spbInitStatus : Int
  allocStatus : Int
  registryStatus : Int
  startStatus : Int
deriving DecidableEq

/-- The observable outcome of `OnPrepareHardware`: the returned status,
the final `I2cResHubId` field, and the trace of external bind steps
actually invoked, in order. -/
structure BindResult where
  status : Int
  i2cResHubId : Option (Nat × Nat)
  steps : List BindStep
deriving DecidableEq

/-- `OnPrepareHardware` (device.c lines 285-425).  `initId` is the value
of `devContext->I2CContext.I2cResHubId` before the call; each
`!NT_SUCCESS` test is a `goto exit`. -/
def OnPrepareHardware (env : BindEnv) (resourcesTranslated : List ResourceDescriptor)
    (initId : Option (Nat × Nat)) : BindResult :=
  let scan := scanResources resourcesTranslated STATUS_INSUFFICIENT_RESOURCES initId
  if !NT_SUCCESS scan.1 then
    { status := scan.1, i2cResHubId := scan.2, steps := [] }
  else
    let steps1 := [BindStep.spbTargetInitialize]
    if !NT_SUCCESS env.spbInitStatus then
      { status := env.spbInitStatus, i2cResHubId := scan.2, steps := steps1 }
    else
      let steps2 := steps1 ++ [BindStep.tchAllocateContext]
      if !NT_SUCCESS env.allocStatus then
        { status := env.allocStatus, i2cResHubId := scan.2, steps := steps2 }
      else
        let steps3 := steps2 ++ [BindStep.tchRegistryGetControllerSettings]
        if !NT_SUCCESS env.registryStatus then
          { status := env.registryStatus, i2cResHubId := scan.2, steps := steps3 }
        else
          { status := env.startStatus, i2cResHubId := scan.2,
            steps := steps3 ++ [BindStep.tchStartDevice] }

/-- The status the post-scan initialization chain yields, determined by
the collaborator statuses alone (first failure wins, otherwise the start
status). -/
def bindChainStatus (env : BindEnv) : Int :=
  if !NT_SUCCESS env.spbInitStatus then env.spbInitStatus
  else if !NT_SUCCESS env.allocStatus then env.allocStatus
  else if !NT_SUCCESS env.registryStatus then env.registryStatus
  else env.startStatus

/-! ## OnReleaseHardware (device.c lines 427-484) -/

/-- The external teardown calls `OnReleaseHardware` makes. -/
inductive ReleaseStep where
  | tchStopDevice
  | tchFreeContext
  | spbTargetDeinitialize
deriving DecidableEq

/-- The observable outcome of `OnReleaseHardware`: returned status,
the trace of teardown steps in invocation order, and whether each
failure-trace branch ran. -/
structure ReleaseResult where
  status : Int
  steps : List ReleaseStep
  loggedStopError : Bool
  loggedFreeError : Bool
deriving DecidableEq

/-- `OnReleaseHardware` (device.c lines 427-484).  `stopStatus` and
`freeStatus` are the statuses returned by the external `TchStopDevice`
and `TchFreeContext` calls; `SpbTargetDeinitialize` returns no status.
The local `status` variable is assigned by each of the two fallible
calls in turn and returned at the end; there is no early return. -/
def OnReleaseHardware (stopStatus freeStatus : Int) : ReleaseResult :=
  let status := stopStatus
  let loggedStopError := !NT_SUCCESS status
  let status := freeStatus
  let loggedFreeError := !NT_SUCCESS status
  { status := status,
    steps := [ReleaseStep.tchStopDevice, ReleaseStep.tchFreeContext,
      ReleaseStep.spbTargetDeinitialize],
    loggedStopError := loggedStopError, loggedFreeError := loggedFreeError }

/-! ## Helper lemmas -/

/-- The servicing loop pops one request per report while requests last:
the remaining queue is `queue.drop reports.length`, and the completions
are the pointwise matching of the i-th oldest request with the i-th
report. -/
theorem serviceLoop_eq (reportSize : Nat) (reports : List Nat)
    (queue : List PendingRequest) (acc : List Completion) :
    serviceLoop reportSize reports queue acc =
      (queue.drop reports.length,
        acc ++ List.zipWith (completionFor reportSize) queue reports) := by
  induction reports generalizing queue acc with
  | nil => simp [serviceLoop]
  | cons r rs ih =>
      cases queue with
      | nil => simp [serviceLoop, ih]
      | cons req q => simp [serviceLoop, ih, List.append_assoc]

/-- On a well-formed queue (retrieve succeeds, buffers large enough)
`completionFor` always takes the copy path. -/
theorem zipWith_completionFor_of_valid (reportSize : Nat) (queue : List PendingRequest)
    (reports : List Nat)
    (hq : ∀ req ∈ queue, NT_SUCCESS req.retrieveStatus = true ∧
      reportSize ≤ req.bufferLength) :
    List.zipWith (completionFor reportSize) queue reports =
      List.zipWith (fun req report =>
        ({ id := req.id, status := req.retrieveStatus, information := reportSize,
           data := some report } : Completion)) queue reports := by
  induction queue generalizing reports with
  | nil => simp
  | cons req q ih =>
      cases reports with
      | nil => simp
      | cons r rs =>
          have hhead : completionFor reportSize req r =
              { id := req.id, status := req.retrieveStatus, information := reportSize,
                data := some r } := by
            obtain ⟨h1, h2⟩ := hq req (List.mem_cons_self req q)
            simp [completionFor, h1, not_lt.mpr h2]
          simp only [List.zipWith_cons_cons, hhead]
          exact congrArg (fun l => _ :: l)
            (ih rs fun x hx => hq x (List.mem_cons_of_mem req hx))

/-- A scan over descriptors none of which matches leaves status and
stored id untouched. -/
theorem scanResources_no_match (resources : List ResourceDescriptor) (status : Int)
    (resHubId : Option (Nat × Nat))
    (h : ∀ res ∈ resources, isI2CConnection res = false) :
    scanResources resources status resHubId = (status, resHubId) := by
  induction resources with
  | nil => rfl
  | cons res rest ih =>
      have hres := h res (List.mem_cons_self res rest)
      simp only [scanResources, hres, Bool.false_eq_true, if_false]
      exact ih fun x hx => h x (List.mem_cons_of_mem res hx)

/-- When the list decomposes around its last matching descriptor, the
scan returns success with precisely that descriptor's connection id,
whatever came before. -/
theorem scanResources_last_match (before after : List ResourceDescriptor)
    (d : ResourceDescriptor) (hd : isI2CConnection d = true)
    (hafter : ∀ res ∈ after, isI2CConnection res = false) (status : Int)
    (resHubId : Option (Nat × Nat)) :
    scanResources (before ++ d :: after) status resHubId =
      (STATUS_SUCCESS, some (d.idLowPart, d.idHighPart)) := by
  induction before generalizing status resHubId with
  | nil =>
      simp only [List.nil_append, scanResources, hd, if_true]
      exact scanResources_no_match after _ _ hafter
  | cons res rest ih =>
      simp only [List.cons_append, scanResources]
      by_cases hres : isI2CConnection res = true
      · simp only [hres, if_true]
        exact ih _ _
      · simp only [hres, if_false]
        exact ih _ _

/-! ## Claims -/

/-- Claim C1: in an interrupt servicing pass where the Report Source
succeeds with N reports and M pending requests are queued (no concurrent
insertion, all requests carrying valid buffers of at least one report's
size), exactly `min N M` requests are completed with report data, report
i going to the i-th oldest request; `queue.drop N` (that is,
`max 0 (M - N)` requests) remains pending, and the `max 0 (N - M)`
surplus reports produce no completion and are not buffered anywhere in
the resulting state. -/
theorem claim_C1_pass_matching (reportSize : Nat) (svcStatus : Int)
    (reports : List Nat) (queue : List PendingRequest)
    (hst : NT_SUCCESS svcStatus = true)
    (hq : ∀ req ∈ queue, NT_SUCCESS req.retrieveStatus = true ∧
      reportSize ≤ req.bufferLength) :
    (OnInterruptIsr reportSize false svcStatus reports queue).completions =
      List.zipWith (fun req report =>
        ({ id := req.id, status := req.retrieveStatus, information := reportSize,
           data := some report } : Completion)) queue reports ∧
    (OnInterruptIsr reportSize false svcStatus reports queue).completions.length =
      min reports.length queue.length ∧
    (OnInterruptIsr reportSize false svcStatus reports queue).queue =
      queue.drop reports.length := by
  have hmain : OnInterruptIsr reportSize false svcStatus reports queue =
      { handled := true, queue := queue.drop reports.length,
        completions := List.zipWith (completionFor reportSize) queue reports,
        reportSourceCalled := true } := by
    simp [OnInterruptIsr, hst, serviceLoop_eq]
  rw [hmain, zipWith_completionFor_of_valid reportSize queue reports hq]
  refine ⟨rfl, ?_, rfl⟩
  simp [List.length_zipWith, Nat.min_comm]

/-- Witness for C1: two reports, one adequate pending request; the
request is completed with the first report's data, the queue ends empty,
and the second report is dropped. -/
theorem claim_C1_pass_matching_witness :
    (OnInterruptIsr 4 false 0 [10, 20] [⟨1, 0, 8⟩]).completions =
      List.zipWith (fun (req : PendingRequest) (report : Nat) =>
        ({ id := req.id, status := req.retrieveStatus, information := 4,
           data := some report } : Completion)) [⟨1, 0, 8⟩] [10, 20] ∧
    (OnInterruptIsr 4 false 0 [10, 20] [⟨1, 0, 8⟩]).completions.length =
      min ([10, 20] : List Nat).length ([⟨1, 0, 8⟩] : List PendingRequest).length ∧
    (OnInterruptIsr 4 false 0 [10, 20] [⟨1, 0, 8⟩]).queue =
      ([⟨1, 0, 8⟩] : List PendingRequest).drop ([10, 20] : List Nat).length :=
  claim_C1_pass_matching 4 0 [10, 20] [⟨1, 0, 8⟩] (by decide) (by decide)

/-- Claim C2: when the Report Source fails, the pass pops and completes
no request, consumes no report, and the interrupt is still reported as
handled. -/
theorem claim_C2_report_source_failure (reportSize : Nat) (svcStatus : Int)
    (reports : List Nat) (queue : List PendingRequest)
    (hst : NT_SUCCESS svcStatus = false) :
    OnInterruptIsr reportSize false svcStatus reports queue =
      { handled := true, queue := queue, completions := [],
        reportSourceCalled := true } := by
  simp [OnInterruptIsr, hst]

/-- Witness for C2: a failing Report Source status leaves the queue of
one request untouched with no completions and a handled interrupt. -/
theorem claim_C2_report_source_failure_witness :
    OnInterruptIsr 4 false STATUS_UNSUCCESSFUL [10] [⟨1, 0, 8⟩] =
      { handled := true, queue := [⟨1, 0, 8⟩], completions := [],
        reportSourceCalled := true } :=
  claim_C2_report_source_failure 4 STATUS_UNSUCCESSFUL [10] [⟨1, 0, 8⟩] (by decide)

/-- Claim C3: a popped request whose output buffer is smaller than
`sizeof(HID_INPUT_REPORT)` is completed with `STATUS_BUFFER_TOO_SMALL`
and zero bytes written (information 0, nothing copied), and the loop
still matches a later report j of the same pass to the j-th request;
the pass still yields one completion per report-request pair. -/
theorem claim_C3_buffer_too_small (reportSize : Nat) (svcStatus : Int)
    (reports : List Nat) (queue : List PendingRequest) (i j : Nat)
    (hst : NT_SUCCESS svcStatus = true)
    (hij : i < j) (hjr : j < reports.length) (hjq : j < queue.length)
    (hiq : i < queue.length)
    (hret_i : NT_SUCCESS (queue[i]).retrieveStatus = true)
    (hsmall : (queue[i]).bufferLength < reportSize)
    (hret_j : NT_SUCCESS (queue[j]).retrieveStatus = true)
    (hbig : reportSize ≤ (queue[j]).bufferLength) :
    (OnInterruptIsr reportSize false svcStatus reports queue).completions.get? i =
      some { id := (queue[i]).id, status := STATUS_BUFFER_TOO_SMALL,
             information := 0, data := none } ∧
    (OnInterruptIsr reportSize false svcStatus reports queue).completions.get? j =
      some { id := (queue[j]).id, status := (queue[j]).retrieveStatus,
             information := reportSize, data := some (reports[j]) } ∧
    (OnInterruptIsr reportSize false svcStatus reports queue).completions.length =
      min reports.length queue.length := by
  have hmain : OnInterruptIsr reportSize false svcStatus reports queue =
      { handled := true, queue := queue.drop reports.length,
        completions := List.zipWith (completionFor reportSize) queue reports,
        reportSourceCalled := true } := by
    simp [OnInterruptIsr, hst, serviceLoop_eq]
  rw [hmain]
  have hir : i < reports.length := lt_trans hij hjr
  have hlen : (List.zipWith (completionFor reportSize) queue reports).length =
      min queue.length reports.length := List.length_zipWith _ _ _
  have hilen : i < (List.zipWith (completionFor reportSize) queue reports).length := by
    rw [hlen]; exact lt_min hiq hir
  have hjlen : j < (List.zipWith (completionFor reportSize) queue reports).length := by
    rw [hlen]; exact lt_min hjq hjr
  refine ⟨?_, ?_, by rw [hlen]; exact Nat.min_comm _ _⟩
  · rw [List.get?_eq_getElem?, List.getElem?_eq_getElem hilen, List.getElem_zipWith]
    simp [completionFor, hret_i, hsmall]
  · rw [List.get?_eq_getElem?, List.getElem?_eq_getElem hjlen, List.getElem_zipWith]
    simp [completionFor, hret_j, not_lt.mpr hbig]

/-- Witness for C3: first request's buffer (1 byte) is below the report
size 4, so it is completed with `STATUS_BUFFER_TOO_SMALL` and zero
bytes; the second report still reaches the second request with data. -/
theorem claim_C3_buffer_too_small_witness :
    (OnInterruptIsr 4 false 0 [10, 20] [⟨1, 0, 1⟩, ⟨2, 0, 8⟩]).completions.get? 0 =
      some { id := (([⟨1, 0, 1⟩, ⟨2, 0, 8⟩] : List PendingRequest)[0]).id,
             status := STATUS_BUFFER_TOO_SMALL, information := 0, data := none } ∧
    (OnInterruptIsr 4 false 0 [10, 20] [⟨1, 0, 1⟩, ⟨2, 0, 8⟩]).completions.get? 1 =
      some { id := (([⟨1, 0, 1⟩, ⟨2, 0, 8⟩] : List PendingRequest)[1]).id,
             status := (([⟨1, 0, 1⟩, ⟨2, 0, 8⟩] : List PendingRequest)[1]).retrieveStatus,
             information := 4, data := some (([10, 20] : List Nat)[1]) } ∧
    (OnInterruptIsr 4 false 0 [10, 20] [⟨1, 0, 1⟩, ⟨2, 0, 8⟩]).completions.length =
      min ([10, 20] : List Nat).length ([⟨1, 0, 1⟩, ⟨2, 0, 8⟩] : List PendingRequest).length :=
  claim_C3_buffer_too_small 4 0 [10, 20] [⟨1, 0, 1⟩, ⟨2, 0, 8⟩] 0 1 (by decide)
    (by decide) (by decide) (by decide) (by decide) (by decide) (by decide)
    (by decide) (by decide)

/-- Claim C4: `OnInterruptIsr` returns TRUE (handled) on every
invocation — diagnostic mode, Report Source failure, empty queue,
buffer-validation failure and full success included. -/
theorem claim_C4_always_handled (reportSize : Nat) (diagnosticMode : Bool)
    (svcStatus : Int) (reports : List Nat) (queue : List PendingRequest) :
    (OnInterruptIsr reportSize diagnosticMode svcStatus reports queue).handled = true := by
  unfold OnInterruptIsr
  by_cases hd : diagnosticMode
  · simp [hd]
  · by_cases hs : NT_SUCCESS svcStatus <;> simp [hd, hs]

/-- Claim C5: `OnD0Entry` sets `ServiceInterruptsAfterD0Entry` to TRUE
whatever status the `TchWakeDevice` call returns, and returns that
status to the caller. -/
theorem claim_C5_service_after_wake (wakeStatus : Int) :
    (OnD0Entry wakeStatus).serviceInterruptsAfterD0Entry = true ∧
    (OnD0Entry wakeStatus).status = wakeStatus :=
  ⟨rfl, rfl⟩

/-- Claim C6: when the translated resource list holds no connection-class
I2C descriptor, `OnPrepareHardware` returns
`STATUS_INSUFFICIENT_RESOURCES`, invokes none of the bind steps
(`SpbTargetInitialize` and everything after it), and leaves the stored
connection id untouched. -/
theorem claim_C6_no_i2c_descriptor (env : BindEnv)
    (resourcesTranslated : List ResourceDescriptor) (initId : Option (Nat × Nat))
    (h : ∀ res ∈ resourcesTranslated, isI2CConnection res = false) :
    OnPrepareHardware env resourcesTranslated initId =
      { status := STATUS_INSUFFICIENT_RESOURCES, i2cResHubId := initId, steps := [] } := by
  unfold OnPrepareHardware
  rw [scanResources_no_match resourcesTranslated _ _ h]
  simp [STATUS_INSUFFICIENT_RESOURCES, NT_SUCCESS]

/-- Witness for C6: a memory-type descriptor and an empty-field
descriptor do not match, so bind fails with no step invoked. -/
theorem claim_C6_no_i2c_descriptor_witness :
    OnPrepareHardware ⟨0, 0, 0, 0⟩ [⟨3, 1, 1, 5, 6⟩, ⟨4, 2, 1, 7, 8⟩] none =
      { status := STATUS_INSUFFICIENT_RESOURCES, i2cResHubId := none, steps := [] } :=
  claim_C6_no_i2c_descriptor ⟨0, 0, 0, 0⟩ [⟨3, 1, 1, 5, 6⟩, ⟨4, 2, 1, 7, 8⟩] none
    (by decide)

/-- Claim C7: `OnReleaseHardware` invokes `TchStopDevice`,
`TchFreeContext` and `SpbTargetDeinitialize` exactly once each, in that
order, for every pair of step statuses — failures included, with no
early return. -/
theorem claim_C7_teardown_steps (stopStatus freeStatus : Int) :
    (OnReleaseHardware stopStatus freeStatus).steps =
      [ReleaseStep.tchStopDevice, ReleaseStep.tchFreeContext,
        ReleaseStep.spbTargetDeinitialize] :=
  rfl

/-- Claim C8: with `DiagnosticMode` set, `OnInterruptIsr` immediately
returns handled without calling the Report Source, popping or completing
any request; the queue is returned unchanged. -/
theorem claim_C8_diagnostic_mode (reportSize : Nat) (svcStatus : Int)
    (reports : List Nat) (queue : List PendingRequest) :
    OnInterruptIsr reportSize true svcStatus reports queue =
      { handled := true, queue := queue, completions := [],
        reportSourceCalled := false } :=
  rfl

/-- Claim C9: with more than one connection-class I2C descriptor in the
list, the stored connection id is that of the last matching descriptor,
the bind chain is still entered (`SpbTargetInitialize` is the first
invoked step) and the returned status is determined by the collaborator
statuses alone, not by the duplicates. -/
theorem claim_C9_last_descriptor_wins (env : BindEnv)
    (before after : List ResourceDescriptor) (d : ResourceDescriptor)
    (initId : Option (Nat × Nat))
    (hd : isI2CConnection d = true)
    (hafter : ∀ res ∈ after, isI2CConnection res = false)
    (_hdup : ∃ e ∈ before, isI2CConnection e = true) :
    (OnPrepareHardware env (before ++ d :: after) initId).i2cResHubId =
      some (d.idLowPart, d.idHighPart) ∧
    (OnPrepareHardware env (before ++ d :: after) initId).steps.head? =
      some BindStep.spbTargetInitialize ∧
    (OnPrepareHardware env (before ++ d :: after) initId).status =
      bindChainStatus env := by
  have h0 : NT_SUCCESS STATUS_SUCCESS = true := by decide
  unfold OnPrepareHardware
  rw [scanResources_last_match before after d hd hafter]
  simp only [h0, Bool.not_true, Bool.false_eq_true, if_false]
  unfold bindChainStatus
  cases h1 : NT_SUCCESS env.spbInitStatus with
  | false => simp [h1]
  | true =>
      cases h2 : NT_SUCCESS env.allocStatus with
      | false => simp [h1, h2]
      | true =>
          cases h3 : NT_SUCCESS env.registryStatus with
          | false => simp [h1, h2, h3]
          | true => simp [h1, h2, h3]

/-- Witness for C9: two matching I2C descriptors; the second one's
connection id (21, 22) is stored, the bind chain runs and the returned
status is the chain status of the all-success environment. -/
theorem claim_C9_last_descriptor_wins_witness :
    (OnPrepareHardware ⟨0, 0, 0, 0⟩
        ([⟨4, 1, 1, 11, 12⟩] ++ (⟨4, 1, 1, 21, 22⟩ : ResourceDescriptor) :: []) none).i2cResHubId =
      some ((⟨4, 1, 1, 21, 22⟩ : ResourceDescriptor).idLowPart,
        (⟨4, 1, 1, 21, 22⟩ : ResourceDescriptor).idHighPart) ∧
    (OnPrepareHardware ⟨0, 0, 0, 0⟩
        ([⟨4, 1, 1, 11, 12⟩] ++ (⟨4, 1, 1, 21, 22⟩ : ResourceDescriptor) :: []) none).steps.head? =
      some BindStep.spbTargetInitialize ∧
    (OnPrepareHardware ⟨0, 0, 0, 0⟩
        ([⟨4, 1, 1, 11, 12⟩] ++ (⟨4, 1, 1, 21, 22⟩ : ResourceDescriptor) :: []) none).status =
      bindChainStatus ⟨0, 0, 0, 0⟩ :=
  claim_C9_last_descriptor_wins ⟨0, 0, 0, 0⟩ [⟨4, 1, 1, 11, 12⟩] [] ⟨4, 1, 1, 21, 22⟩
    none (by decide) (by decide) ⟨⟨4, 1, 1, 11, 12⟩, by decide⟩

/-- Claim C10: `OnReleaseHardware` returns exactly the `TchFreeContext`
status: the `TchStopDevice` status is overwritten and never reflected in
the return value, and `SpbTargetDeinitialize`, returning no status,
cannot affect it. -/
theorem claim_C10_release_status (stopStatus freeStatus : Int) :
    (OnReleaseHardware stopStatus freeStatus).status = freeStatus :=
  rfl

end SynapticsTouch
